import Mathlib

/-!
Verification development for the `webrtc-p2p` prototype: a shallow embedding
of its SDP/ICE negotiation logic (actor message handlers, callbacks and the
wire serialization helpers) together with theorems settling the spec claims.

Sources embedded:
- `src/utils.rs` (`serialize` / `deserialize`),
- `src/webrtc_actor.rs` (webrtc-rs based actor: SDP and ICE mailbox handlers,
  local `on_ice_candidate` callback, `pending_candidates` queue),
- `src/webrtcbin_actor.rs` (gstreamer webrtcbin actor: `handle_sdp`,
  `on_offer_created`, `on_answer_created`, `on_negotiation_needed`,
  `on_ice_candidate`, the `main_fn` mailbox loop),
- `src/sendrecv.rs` (`App::handle_ice`, `App::on_ice_candidate`, pad-added),
- `src/nats_actor.rs` (`executor` mailbox loop),
- `src/pipeline.rs` (`upgrade_weak!` discipline, modelled as an
  `Option`-valued resolution passed to every continuation).

External collaborators (the gstreamer/webrtc engines, serde_json, base64,
the transports) are modelled as follows: engine calls become explicit
`EngineOp` effects whose success/failure is an oracle (`EngineBehavior`,
`GstBehavior`); serde_json becomes an executable mini JSON value type with a
renderer and a fuel-based parser (numbers restricted to integers — no claim
involves floats); the `base64` crate's standard padded alphabet and UTF-8 are
implemented executably.
-/

set_option maxRecDepth 8192

namespace WebrtcP2P

/-- `gst_webrtc::WebRTCSDPType` (aliased `SDPType` in `webrtcbin_actor.rs`);
only the members the repository mentions. -/
inductive SDPType where
  | offer
  | answer
  | pranswer
  | rollback
deriving DecidableEq, Repr

/-- `WebRTCSDPType::to_str` for the members above. -/
def SDPType.toStr : SDPType → String
  | .offer => "offer"
  | .answer => "answer"
  | .pranswer => "pranswer"
  | .rollback => "rollback"

/-! ## JSON model (serde_json values, restricted to integer numbers) -/

/-- serde_json `Value`, with numbers restricted to integers (no claim of this
development involves floating point payloads). -/
inductive Json where
  | null
  | jbool (b : Bool)
  | jnum (n : Int)
  | jstr (s : String)
  | jarr (xs : List Json)
  | jobj (fields : List (String × Json))

/-- Key lookup taking the last binding, mirroring serde_json's map semantics
where a duplicate key overwrites the earlier one. -/
def lookLast : List (String × Json) → String → Option Json
  | [], _ => none
  | (k, v) :: rest, key =>
    match lookLast rest key with
    | some w => some w
    | none => if k = key then some v else none

/-- serde_json `Value::index` by string key: `Null` for a missing key and for
non-objects. -/
def Json.getField (j : Json) (key : String) : Json :=
  match j with
  | .jobj fields => (lookLast fields key).getD .null
  | _ => .null

/-- serde_json `Value::as_str`. -/
def Json.asStr : Json → Option String
  | .jstr s => some s
  | _ => none

def hexDigit (n : Nat) : Char :=
  if n < 10 then Char.ofNat (48 + n) else Char.ofNat (87 + (n - 10))

def hex4 (n : Nat) : String :=
  String.mk [hexDigit (n / 4096 % 16), hexDigit (n / 256 % 16),
    hexDigit (n / 16 % 16), hexDigit (n % 16)]

/-- serde_json string escaping for one character. -/
def escapeChar (c : Char) : String :=
  if c = '"' then "\\\""
  else if c = '\\' then "\\\\"
  else if c = '\n' then "\\n"
  else if c = '\r' then "\\r"
  else if c = '\t' then "\\t"
  else if c.toNat = 8 then "\\b"
  else if c.toNat = 12 then "\\f"
  else if c.toNat < 32 then "\\u" ++ hex4 c.toNat
  else String.singleton c

/-- The JSON text of a string value: `serde_json::to_string` applied to a
`&str` — quote-wrapped and escaped. -/
def jsonEncodeString (s : String) : String :=
  "\"" ++ String.join (s.data.map escapeChar) ++ "\""

mutual

/-- serde_json `Value::to_string` (compact form, no whitespace). -/
def Json.render : Json → String
  | .null => "null"
  | .jbool true => "true"
  | .jbool false => "false"
  | .jnum n => toString n
  | .jstr s => jsonEncodeString s
  | .jarr xs => "[" ++ renderElems xs ++ "]"
  | .jobj fs => "\x7b" ++ renderFields fs ++ "\x7d"

def renderElems : List Json → String
  | [] => ""
  | [x] => Json.render x
  | x :: y :: xs => Json.render x ++ "," ++ renderElems (y :: xs)

def renderFields : List (String × Json) → String
  | [] => ""
  | [(k, v)] => jsonEncodeString k ++ ":" ++ Json.render v
  | (k, v) :: f :: fs =>
    jsonEncodeString k ++ ":" ++ Json.render v ++ "," ++ renderFields (f :: fs)

end

/-! ### JSON parser (serde_json `from_slice` on the value level), fuel-based -/

def jsonWs (c : Char) : Bool :=
  c = ' ' ∨ c = '\n' ∨ c = '\t' ∨ c = '\r'

def skipWs : List Char → List Char
  | [] => []
  | c :: rest => if jsonWs c then skipWs rest else c :: rest

def hexVal (c : Char) : Option Nat :=
  if 48 ≤ c.toNat ∧ c.toNat ≤ 57 then some (c.toNat - 48)
  else if 97 ≤ c.toNat ∧ c.toNat ≤ 102 then some (c.toNat - 87)
  else if 65 ≤ c.toNat ∧ c.toNat ≤ 70 then some (c.toNat - 55)
  else none

def parseHex4 : List Char → Option (Nat × List Char)
  | c0 :: c1 :: c2 :: c3 :: rest =>
    match hexVal c0, hexVal c1, hexVal c2, hexVal c3 with
    | some v0, some v1, some v2, some v3 =>
      some (v0 * 4096 + v1 * 256 + v2 * 16 + v3, rest)
    | _, _, _, _ => none
  | _ => none

/-- Parse a JSON string body after the opening quote. Escaped surrogate
pairs are rejected rather than combined (none of the repository's payloads
contain them). -/
def parseStringBody : Nat → List Char → Option (String × List Char)
  | 0, _ => none
  | _ + 1, [] => none
  | fuel + 1, c :: rest =>
    if c = '"' then some ("", rest)
    else if c = '\\' then
      match rest with
      | [] => none
      | e :: rest2 =>
        if e = 'u' then
          match parseHex4 rest2 with
          | some (n, rest3) =>
            if n < 55296 ∨ 57343 < n then
              (parseStringBody fuel rest3).map
                (fun p => (String.singleton (Char.ofNat n) ++ p.1, p.2))
            else none
          | none => none
        else
          match
            (if e = '"' then some '"'
             else if e = '\\' then some '\\'
             else if e = '/' then some '/'
             else if e = 'b' then some (Char.ofNat 8)
             else if e = 'f' then some (Char.ofNat 12)
             else if e = 'n' then some '\n'
             else if e = 'r' then some '\r'
             else if e = 't' then some '\t'
             else none) with
          | some d =>
            (parseStringBody fuel rest2).map
              (fun p => (String.singleton d ++ p.1, p.2))
          | none => none
    else if c.toNat < 32 then none
    else
      (parseStringBody fuel rest).map
        (fun p => (String.singleton c ++ p.1, p.2))

def parseDigitsAux : List Char → Nat → Nat × List Char
  | [], acc => (acc, [])
  | c :: rest, acc =>
    if c.isDigit then parseDigitsAux rest (acc * 10 + (c.toNat - 48))
    else (acc, c :: rest)

/-- Integer literals only; a following `.`, `e` or `E` makes the parse fail
(the repository's wire data contains only integers). -/
def parseIntLit : List Char → Option (Int × List Char)
  | cs =>
    let (neg, cs1) :=
      match cs with
      | '-' :: rest => (true, rest)
      | _ => (false, cs)
    match cs1 with
    | c :: _ =>
      if c.isDigit then
        let (n, rest) := parseDigitsAux cs1 0
        match rest with
        | d :: _ =>
          if d = '.' ∨ d = 'e' ∨ d = 'E' then none
          else some (if neg then -(n : Int) else (n : Int), rest)
        | [] => some (if neg then -(n : Int) else (n : Int), [])
      else none
    | [] => none

def startsWithChars : List Char → List Char → Option (List Char)
  | [], cs => some cs
  | _, [] => none
  | p :: ps, c :: cs => if p = c then startsWithChars ps cs else none

mutual

def parseValue : Nat → List Char → Option (Json × List Char)
  | 0, _ => none
  | fuel + 1, cs =>
    match skipWs cs with
    | [] => none
    | c :: rest =>
      if c = '"' then
        (parseStringBody (fuel + 1) rest).map (fun p => (Json.jstr p.1, p.2))
      else if c = '[' then
        parseElems fuel rest
      else if c = '\x7b' then
        parseMembers fuel rest
      else
        match startsWithChars "null".data (c :: rest) with
        | some r => some (Json.null, r)
        | none =>
          match startsWithChars "true".data (c :: rest) with
          | some r => some (Json.jbool true, r)
          | none =>
            match startsWithChars "false".data (c :: rest) with
            | some r => some (Json.jbool false, r)
            | none =>
              (parseIntLit (c :: rest)).map (fun p => (Json.jnum p.1, p.2))

/-- After `[`: the elements and the closing bracket. -/
def parseElems : Nat → List Char → Option (Json × List Char)
  | 0, _ => none
  | fuel + 1, cs =>
    match skipWs cs with
    | ']' :: rest => some (Json.jarr [], rest)
    | cs1 =>
      (parseElemsTail fuel cs1).map (fun p => (Json.jarr p.1, p.2))

def parseElemsTail : Nat → List Char → Option (List Json × List Char)
  | 0, _ => none
  | fuel + 1, cs =>
    match parseValue fuel cs with
    | none => none
    | some (v, rest) =>
      match skipWs rest with
      | ',' :: rest2 =>
        (parseElemsTail fuel rest2).map (fun p => (v :: p.1, p.2))
      | ']' :: rest2 => some ([v], rest2)
      | _ => none

/-- After the opening brace: the members and the closing brace. -/
def parseMembers : Nat → List Char → Option (Json × List Char)
  | 0, _ => none
  | fuel + 1, cs =>
    match skipWs cs with
    | '\x7d' :: rest => some (Json.jobj [], rest)
    | cs1 =>
      (parseMembersTail fuel cs1).map (fun p => (Json.jobj p.1, p.2))

def parseMembersTail : Nat → List Char → Option (List (String × Json) × List Char)
  | 0, _ => none
  | fuel + 1, cs =>
    match skipWs cs with
    | '"' :: rest =>
      match parseStringBody (fuel + 1) rest with
      | none => none
      | some (key, rest1) =>
        match skipWs rest1 with
        | ':' :: rest2 =>
          match parseValue fuel rest2 with
          | none => none
          | some (v, rest3) =>
            match skipWs rest3 with
            | ',' :: rest4 =>
              (parseMembersTail fuel rest4).map (fun p => ((key, v) :: p.1, p.2))
            | '\x7d' :: rest4 => some ([(key, v)], rest4)
            | _ => none
        | _ => none
    | _ => none

end

/-- serde_json parse (value level): the whole input must be consumed. -/
def Json.parse (s : String) : Option Json :=
  match parseValue (s.length * 2 + 8) s.data with
  | some (v, rest) => if (skipWs rest).isEmpty then some v else none
  | none => none

/-! ## UTF-8 (string/byte bridging for `from_slice` and `as_bytes`) -/

def utf8EncodeChar (c : Char) : List Nat :=
  let n := c.toNat
  if n < 128 then [n]
  else if n < 2048 then [192 + n / 64, 128 + n % 64]
  else if n < 65536 then [224 + n / 4096, 128 + n / 64 % 64, 128 + n % 64]
  else [240 + n / 262144, 128 + n / 4096 % 64, 128 + n / 64 % 64, 128 + n % 64]

def strToBytes (s : String) : List Nat :=
  (s.data.map utf8EncodeChar).flatten

def isCont (b : Nat) : Bool :=
  decide (128 ≤ b ∧ b < 192)

def utf8Decode : Nat → List Nat → Option (List Char)
  | _, [] => some []
  | 0, _ :: _ => none
  | fuel + 1, b :: rest =>
    if b < 128 then
      (utf8Decode fuel rest).map (fun cs => Char.ofNat b :: cs)
    else if b < 192 then none
    else if b < 224 then
      match rest with
      | b1 :: rest2 =>
        if isCont b1 then
          let n := (b - 192) * 64 + (b1 - 128)
          if 128 ≤ n then
            (utf8Decode fuel rest2).map (fun cs => Char.ofNat n :: cs)
          else none
        else none
      | [] => none
    else if b < 240 then
      match rest with
      | b1 :: b2 :: rest2 =>
        if isCont b1 ∧ isCont b2 then
          let n := (b - 224) * 4096 + (b1 - 128) * 64 + (b2 - 128)
          if 2048 ≤ n ∧ (n < 55296 ∨ 57343 < n) then
            (utf8Decode fuel rest2).map (fun cs => Char.ofNat n :: cs)
          else none
        else none
      | _ => none
    else if b < 248 then
      match rest with
      | b1 :: b2 :: b3 :: rest2 =>
        if isCont b1 ∧ isCont b2 ∧ isCont b3 then
          let n := (b - 240) * 262144 + (b1 - 128) * 4096 + (b2 - 128) * 64 + (b3 - 128)
          if 65536 ≤ n ∧ n < 1114112 then
            (utf8Decode fuel rest2).map (fun cs => Char.ofNat n :: cs)
          else none
        else none
      | _ => none
    else none

def bytesToStr (bs : List Nat) : Option String :=
  (utf8Decode (bs.length + 1) bs).map String.mk

/-! ## base64 (the `base64` crate's standard padded alphabet) -/

def b64Char (n : Nat) : Char :=
  if n < 26 then Char.ofNat (65 + n)
  else if n < 52 then Char.ofNat (97 + (n - 26))
  else if n < 62 then Char.ofNat (48 + (n - 52))
  else if n = 62 then '+'
  else '/'

def b64EncodeChunks : List Nat → List Char
  | b0 :: b1 :: b2 :: rest =>
    let n := b0 * 65536 + b1 * 256 + b2
    b64Char (n / 262144) :: b64Char (n / 4096 % 64) :: b64Char (n / 64 % 64) ::
      b64Char (n % 64) :: b64EncodeChunks rest
  | [b0, b1] =>
    let n := b0 * 65536 + b1 * 256
    [b64Char (n / 262144), b64Char (n / 4096 % 64), b64Char (n / 64 % 64), '=']
  | [b0] =>
    let n := b0 * 65536
    [b64Char (n / 262144), b64Char (n / 4096 % 64), '=', '=']
  | [] => []

def base64encode (bs : List Nat) : String :=
  String.mk (b64EncodeChunks bs)

def b64Val (c : Char) : Option Nat :=
  if 65 ≤ c.toNat ∧ c.toNat ≤ 90 then some (c.toNat - 65)
  else if 97 ≤ c.toNat ∧ c.toNat ≤ 122 then some (c.toNat - 97 + 26)
  else if 48 ≤ c.toNat ∧ c.toNat ≤ 57 then some (c.toNat - 48 + 52)
  else if c = '+' then some 62
  else if c = '/' then some 63
  else none

def b64DecodeChunks : List Char → Option (List Nat)
  | [] => some []
  | c0 :: c1 :: c2 :: c3 :: rest =>
    match b64Val c0, b64Val c1 with
    | some v0, some v1 =>
      if c2 = '=' then
        if c3 = '=' ∧ rest = [] then some [v0 * 4 + v1 / 16] else none
      else
        match b64Val c2 with
        | some v2 =>
          if c3 = '=' then
            if rest = [] then some [v0 * 4 + v1 / 16, v1 % 16 * 16 + v2 / 4]
            else none
          else
            match b64Val c3 with
            | some v3 =>
              (b64DecodeChunks rest).map
                (fun tail => (v0 * 4 + v1 / 16) :: (v1 % 16 * 16 + v2 / 4) ::
                  (v2 % 4 * 64 + v3) :: tail)
            | none => none
        | none => none
    | _, _ => none
  | _ => none

def base64decode (s : String) : Option (List Nat) :=
  b64DecodeChunks s.data

/-! ## `src/utils.rs`: `serialize` and `deserialize` -/

/-- The `match` inside `utils::serialize`: only `Offer` and `Answer` have a
wire name; everything else hits the `bail!("SDP type not supported")` arm. -/
def sdpTypeWire : SDPType → Option String
  | .offer => some "offer"
  | .answer => some "answer"
  | _ => none

/-- The JSON object `utils::serialize` builds: note the `sdp` field holds
`serde_json::to_string(sdp)` — the already-JSON-encoded text of the SDP —
so the SDP is JSON-string-encoded twice. Keys are in serde_json's `BTreeMap`
order (`"sdp" < "type"`). -/
def wireJson (ty : String) (sdp : String) : Json :=
  Json.jobj [("sdp", Json.jstr (jsonEncodeString sdp)), ("type", Json.jstr ty)]

/-- `base64::encode` of the rendered JSON. -/
def wireEncode (j : Json) : String :=
  base64encode (strToBytes (Json.render j))

/-- `utils::serialize`. -/
def serialize (t : SDPType) (sdp : String) : Except String String :=
  match sdpTypeWire t with
  | some ty => .ok (wireEncode (wireJson ty sdp))
  | none => .error "SDP type not supported"

/-- Result of `utils::deserialize`: `anyhow::Result` plus the distinguished
outcome of an `unwrap` on `None` — a process panic. -/
inductive DeserResult where
  | ok (kind : SDPType) (sdp : String)
  | err (tag : String)
  | panicked
deriving DecidableEq, Repr

/-- `utils::deserialize` after base64 and JSON parsing succeeded
(`utils.rs` lines 31–42). `p` is the oracle for the external
`gst_sdp::SDPMessage::parse_buffer` (`true` = the engine accepts the text).
Mirrors the source's order: `json["sdp"].as_str().unwrap()` first (panic on
a missing or non-string field), then `parse_buffer` with `?` (recovered
error), then `json["type"].as_str().unwrap()` (panic), then the kind match
(`bail!` on an unsupported kind). -/
def deserializeJson (p : String → Bool) (j : Json) : DeserResult :=
  match (j.getField "sdp").asStr with
  | none => .panicked
  | some sdpStr =>
    if p sdpStr then
      match (j.getField "type").asStr with
      | none => .panicked
      | some t =>
        if t = "offer" then .ok .offer sdpStr
        else if t = "answer" then .ok .answer sdpStr
        else .err "SDP type not supported"
    else .err "sdp-parse"

/-- `utils::deserialize`: base64 decode (`?`), `serde_json::from_slice`
(`?`, also failing on invalid UTF-8), then `deserializeJson`. -/
def deserialize (p : String → Bool) (input : String) : DeserResult :=
  match base64decode input with
  | none => .err "base64"
  | some bs =>
    match bytesToStr bs with
    | none => .err "json"
    | some txt =>
      match Json.parse txt with
      | none => .err "json"
      | some j => deserializeJson p j

/-! ## Shared effect vocabulary for the actor models -/

/-- Calls into the external media/WebRTC engines, as effects. -/
inductive EngineOp where
  | setRemoteDescription (kind : SDPType) (sdp : String)
  | createAnswer
  | createOffer
  | setLocalDescription (kind : SDPType) (sdp : String)
  | addIceCandidate (mline : Nat) (candidate : String)
  | addIncomingStreamBranch
deriving DecidableEq, Repr

/-- Payloads sent to another actor's mailbox / published on the bus. -/
inductive OutboundMsg where
  | text (payload : String)
  | sdpTyped (order : Nat) (kind : SDPType) (sdp : String)
  | iceTyped (order : Nat) (mline : Nat) (candidate : String) (mid : Option String)
  | wireSdp (ty : String) (sdp : String)
  | wireIce (candidate : String) (mline : Nat) (mid : String)
deriving DecidableEq, Repr

inductive Effect where
  | engine (op : EngineOp)
  | send (mailbox : String) (msg : OutboundMsg)
  | natsPublish (subject : String) (msg : OutboundMsg)
  | spawnGstreamer
deriving DecidableEq, Repr

/-- Result of running a handler: either its state/effects, or a process
panic (`panic!`, `expect`, `unwrap`, `assert!(false)` in the source). -/
inductive Outcome (α : Type) where
  | ok (value : α)
  | panicked
deriving DecidableEq, Repr

/-- The outbound sends among a list of effects. -/
def sends (effs : List Effect) : List Effect :=
  effs.filter fun e =>
    match e with
    | .send _ _ => true
    | .natsPublish _ _ => true
    | _ => false

/-! ## `src/webrtc_actor.rs` (webrtc-rs based actor) -/

/-- A locally discovered `RTCIceCandidate`, as projected by
`signal_candidate` via `to_json` (`webrtc_actor.rs` lines 271–283). -/
structure LocalCandidate where
  mline : Nat
  candidate : String
  mid : Option String
deriving DecidableEq, Repr

/-- The per-connection observable state of the webrtc-rs actor:
`pc.remote_description()` and the `pending_candidates` vector (which the
source fills with locally discovered candidates awaiting signaling). -/
structure PeerConnState where
  remoteDescription : Option String
  pendingCandidates : List LocalCandidate
deriving DecidableEq, Repr

/-- Success/failure oracle for the engine calls the webrtc-rs actor makes. -/
structure EngineBehavior where
  setRemoteOk : Bool
  /-- `pc.create_answer(None)`: `some sdp` = `Ok` with that SDP text. -/
  createAnswerResult : Option String
  setLocalOk : Bool
  addIceOk : Bool
  /-- `signal_candidate` (candidate `to_json` + tell to the NATS actor). -/
  signalOk : Bool
deriving DecidableEq, Repr

def engAllOk : EngineBehavior :=
  { setRemoteOk := true, createAnswerResult := some "ANSWER_1",
    setLocalOk := true, addIceOk := true, signalOk := true }

def engSetRemoteFails : EngineBehavior :=
  { setRemoteOk := false, createAnswerResult := some "ANSWER_1",
    setLocalOk := true, addIceOk := true, signalOk := true }

/-- `serde_json::from_str::<RTCSessionDescription>` on
`{"type": type_, "sdp": ...}`: the recognised SDP type strings. A string
outside them makes the handler `panic!("{err}")` (modelled by `none`). -/
def parseRtcSdpType (t : String) : Option SDPType :=
  if t = "offer" then some .offer
  else if t = "answer" then some .answer
  else if t = "pranswer" then some .pranswer
  else if t = "rollback" then some .rollback
  else none

/-- The SDP `on_tell` handler of `WebRtcActor::run`
(`webrtc_actor.rs` lines 182–225). On any incoming `(type_, sdp)` it:
parses an `RTCSessionDescription` (`panic!` on error), and — when the weak
peer-connection reference upgrades — sets the remote description (`panic!`
on error), creates an answer (`panic!` on error; on success tells the
answer to the `nats_actor` mailbox before setting it locally), sets the
local description (`panic!` on error), and signals every buffered local
candidate to NATS (`panic!` on error) WITHOUT clearing the queue. After the
block it unconditionally spawns the Gstreamer actor. There is no state or
role check of any kind. -/
def sdpTellHandler (eng : EngineBehavior) (order : Nat) (alive : Bool)
    (st : PeerConnState) (type_ : String) (sdp : String) :
    Outcome (PeerConnState × List Effect) :=
  match parseRtcSdpType type_ with
  | none => .panicked
  | some kind =>
    if alive then
      if eng.setRemoteOk then
        let st1 := { st with remoteDescription := some sdp }
        match eng.createAnswerResult with
        | some answerSdp =>
          if eng.setLocalOk then
            if eng.signalOk ∨ st.pendingCandidates.isEmpty then
              .ok (st1,
                [Effect.engine (EngineOp.setRemoteDescription kind sdp),
                 Effect.engine EngineOp.createAnswer,
                 Effect.send "nats_actor"
                   (OutboundMsg.sdpTyped order SDPType.answer answerSdp),
                 Effect.engine (EngineOp.setLocalDescription SDPType.answer answerSdp)]
                ++ (st.pendingCandidates.map fun c =>
                     Effect.send "nats_actor"
                       (OutboundMsg.iceTyped order c.mline c.candidate c.mid))
                ++ [Effect.spawnGstreamer])
            else .panicked
          else .panicked
        | none => .panicked
      else .panicked
    else .ok (st, [Effect.spawnGstreamer])

/-- The ICE `on_tell` handler of `WebRtcActor::run`
(`webrtc_actor.rs` lines 226–249): a candidate received from the remote
peer is passed to `pc.add_ice_candidate` IMMEDIATELY (`panic!` on engine
error), with no check of the remote description and no buffering; the
received `sdp_mline_index` and `sdp_mid` are dropped
(`RTCIceCandidateInit { candidate, ..Default::default() }`). -/
def iceTellHandler (eng : EngineBehavior) (alive : Bool) (st : PeerConnState)
    (candidate : String) (_mline : Nat) (_mid : String) :
    Outcome (PeerConnState × List Effect) :=
  if alive then
    if eng.addIceOk then
      .ok (st, [Effect.engine (EngineOp.addIceCandidate 0 candidate)])
    else .panicked
  else .ok (st, [])

/-- The `on_ice_candidate` engine callback (`webrtc_actor.rs` lines
108–132): when a LOCAL candidate is discovered and the weak
peer-connection reference upgrades, the candidate is pushed onto
`pending_candidates` if the remote description is not yet set, and
otherwise signalled to the NATS actor (`assert!(false, ..)` — a panic — on
signaling error). -/
def onIceCandidateCallback (order : Nat) (eng : EngineBehavior) (alive : Bool)
    (st : PeerConnState) (c : Option LocalCandidate) :
    Outcome (PeerConnState × List Effect) :=
  match c with
  | none => .ok (st, [])
  | some cand =>
    if alive then
      match st.remoteDescription with
      | none =>
        .ok ({ st with pendingCandidates := st.pendingCandidates ++ [cand] }, [])
      | some _ =>
        if eng.signalOk then
          .ok (st, [Effect.send "nats_actor"
            (OutboundMsg.iceTyped order cand.mline cand.candidate cand.mid)])
        else .panicked
    else .ok (st, [])

/-! ## `src/webrtcbin_actor.rs` (gstreamer webrtcbin actor) -/

/-- Oracle for `gst_sdp::SDPMessage::parse_buffer`. -/
structure GstBehavior where
  sdpParseOk : String → Bool

def gstOk : GstBehavior := { sdpParseOk := fun _ => true }

/-- Result of the webrtcbin callbacks: effects, a recovered
`anyhow::Error` (`bail!` / `map_err`+`?`), or a panic from an `unwrap` /
`expect` inside the body. -/
inductive CbResult where
  | ok (effects : List Effect)
  | errResult
  | panicked
deriving DecidableEq, Repr

/-- `WebRTCPipeline::handle_sdp` (`webrtcbin_actor.rs` lines 220–276),
with the effects of its `call_async` closure folded in sequence.
- `Answer`: `parse_buffer` failure is a recovered error; otherwise
  `set-remote-description` is emitted — unconditionally, whatever the
  session has done before.
- `Offer`: the closure upgrades the weak pipeline reference (no-op when
  dead), then `parse_buffer(..).unwrap()` — a PANIC on unparsable SDP —
  then emits `set-remote-description` and `create-answer` (whose promise
  later runs `on_answer_created`).
- any other kind: `bail!("SDP type is not ...")`, a recovered error at
  this level (the caller turns it into a panic, see `mainFnApplySdp`). -/
def handleSdp (g : GstBehavior) (alive : Bool) (type_ : SDPType) (sdp : String) :
    CbResult :=
  match type_ with
  | .answer =>
    if g.sdpParseOk sdp then
      .ok [Effect.engine (EngineOp.setRemoteDescription SDPType.answer sdp)]
    else .errResult
  | .offer =>
    if alive then
      if g.sdpParseOk sdp then
        .ok [Effect.engine (EngineOp.setRemoteDescription SDPType.offer sdp),
             Effect.engine EngineOp.createAnswer]
      else .panicked
    else .ok []
  | _ => .errResult

/-- How `main_fn`'s mailbox loop (`webrtcbin_actor.rs` lines 435–450)
consumes `handle_sdp`'s result: `.expect("couldn't handle sdp")` — any
recovered error becomes an actor panic. -/
def mainFnApplySdp (r : CbResult) : Outcome (List Effect) :=
  match r with
  | .ok effs => .ok effs
  | .errResult => .panicked
  | .panicked => .panicked

/-- The whole `main_fn` `on_tell` body: `utils::deserialize` (an `Err` is
only printed — log and discard), then `upgrade_weak!`, then `handle_sdp`
with `.expect`. -/
def mainFnOnTell (g : GstBehavior) (alive : Bool) (wire : String) :
    Outcome (List Effect) :=
  match deserialize g.sdpParseOk wire with
  | .panicked => .panicked
  | .err _ => .ok []
  | .ok kind sdp =>
    if alive then mainFnApplySdp (handleSdp g alive kind sdp)
    else .ok []

/-- A gstreamer promise reply as seen by `on_offer_created` /
`on_answer_created`: `Ok(Some(reply))` carrying the created description's
SDP text, `Ok(None)`, or `Err(_)`. -/
inductive PromiseReply where
  | replied (value : Option String)
  | failed
deriving DecidableEq, Repr

/-- `WebRTCPipeline::on_offer_created` (`webrtcbin_actor.rs` lines
310–344): on a good reply it emits `set-local-description` with the
created offer and tells `utils::serialize(Offer, sdp)` to the `"server"`
mailbox; `Ok(None)` / `Err` replies `bail!`. -/
def onOfferCreated (reply : PromiseReply) : CbResult :=
  match reply with
  | .failed => .errResult
  | .replied none => .errResult
  | .replied (some sdp) =>
    match serialize SDPType.offer sdp with
    | .error _ => .errResult
    | .ok wire =>
      .ok [Effect.engine (EngineOp.setLocalDescription SDPType.offer sdp),
           Effect.send "server" (OutboundMsg.text wire)]

/-- `WebRTCPipeline::on_answer_created` (`webrtcbin_actor.rs` lines
346–378): on a good reply it emits `set-local-description` with the
created answer, computes `utils::serialize(Answer, sdp)` into the local
`sdp` variable — and then executes `Distributor::named("client")
.tell_one("sdp")`: the LITERAL three-character string `"sdp"` is sent, the
serialized answer is dropped. -/
def onAnswerCreated (reply : PromiseReply) : CbResult :=
  match reply with
  | .failed => .errResult
  | .replied none => .errResult
  | .replied (some sdp) =>
    match serialize SDPType.answer sdp with
    | .error _ => .errResult
    | .ok _wire =>
      .ok [Effect.engine (EngineOp.setLocalDescription SDPType.answer sdp),
           Effect.send "client" (OutboundMsg.text "sdp")]

/-- `WebRTCPipeline::on_ice_candidate` (`webrtcbin_actor.rs` lines
278–283), the handler for LOCALLY discovered candidates: it emits
`add-ice-candidate` back into its OWN webrtcbin — no message to any remote
mailbox is produced. -/
def webrtcbinOnIceCandidate (mline : Nat) (candidate : String) : List Effect :=
  [Effect.engine (EngineOp.addIceCandidate mline candidate)]

/-- `WebRTCPipeline::on_negotiation_needed` (`webrtcbin_actor.rs` lines
285–308): emits `create-offer` whose promise later runs
`on_offer_created`. -/
def onNegotiationNeeded : List Effect :=
  [Effect.engine EngineOp.createOffer]

/-! ## `src/sendrecv.rs` (gstreamer example variant) -/

/-- `App::handle_ice` (`sendrecv.rs` lines 381–387): emits
`add-ice-candidate` with `.unwrap()` — an emit failure is a panic. -/
def appHandleIce (emitOk : Bool) (mline : Nat) (candidate : String) :
    Outcome (List Effect) :=
  if emitOk then .ok [Effect.engine (EngineOp.addIceCandidate mline candidate)]
  else .panicked

/-- `App::on_ice_candidate` (`sendrecv.rs` lines 391–401): serializes the
candidate into a `JsonMsg::Ice` JSON text — and sends it NOWHERE (the send
site is the `// TODO` comment). The first component is the built message,
the second the (empty) list of outbound effects. -/
def sendrecvOnIceCandidate (mline : Nat) (candidate : String) :
    String × List Effect :=
  (Json.render (Json.jobj [("ice", Json.jobj
      [("candidate", Json.jstr candidate), ("sdpMLineIndex", Json.jnum mline)])]),
   [])

/-- Pad direction, for `App::on_incoming_stream` (`sendrecv.rs` lines
404–431). -/
inductive PadDir where
  | src
  | sink
deriving DecidableEq, Repr

/-- Effects of `App::on_incoming_stream` once the weak reference upgraded:
nothing for non-source pads, a new decodebin branch otherwise. -/
def onIncomingStream (dir : PadDir) : List Effect :=
  match dir with
  | .sink => []
  | .src => [Effect.engine EngineOp.addIncomingStreamBranch]

/-! ## `src/nats_actor.rs` -/

/-- The SDP branch of `executor`'s mailbox loop (`nats_actor.rs` lines
64–97): serializes a `JsonMsg::Sdp`, `conn.upgrade().unwrap()` (panic when
the connection is gone), and publishes to `device_{order+10}` with
`.expect(..)` (panic on publish error). -/
def natsPublishSdp (connAlive : Bool) (publishOk : Bool) (order : Nat)
    (kind : SDPType) (sdp : String) : Outcome (List Effect) :=
  if connAlive then
    if publishOk then
      .ok [Effect.natsPublish ("device_" ++ toString (order + 10))
        (OutboundMsg.wireSdp kind.toStr sdp)]
    else .panicked
  else .panicked

/-- The ICE branch of the same loop: publish of a `JsonMsg::Ice` with the
same `unwrap`/`expect` pattern. -/
def natsPublishIce (connAlive : Bool) (publishOk : Bool) (order : Nat)
    (mline : Nat) (candidate : String) (mid : String) : Outcome (List Effect) :=
  if connAlive then
    if publishOk then
      .ok [Effect.natsPublish ("device_" ++ toString (order + 10))
        (OutboundMsg.wireIce candidate mline mid)]
    else .panicked
  else .panicked

/-! ## Asynchronous continuations and the `upgrade_weak!` discipline

Every continuation the sessions register (promise change funcs, signal
closures, the pad-added closure, the webrtc-rs ICE callback) holds a weak
back-reference and fires through `upgrade_weak!` / `Weak::upgrade`; the
`alive : Bool` argument below models whether that resolution succeeds. -/

inductive Continuation where
  /-- webrtc-rs `on_ice_candidate` callback (`webrtc_actor.rs` 108–132). -/
  | wrtcIce (order : Nat) (eng : EngineBehavior) (c : Option LocalCandidate)
  /-- the `create-offer` promise of `on_negotiation_needed`
  (`webrtcbin_actor.rs` 289–301). -/
  | binOfferPromise (reply : PromiseReply)
  /-- the `create-answer` promise registered in `handle_sdp`
  (`webrtcbin_actor.rs` 251–263). -/
  | binAnswerPromise (reply : PromiseReply)
  /-- the `call_async` closure of `handle_sdp`'s offer arm
  (`webrtcbin_actor.rs` 240–270); `parseOk` is the `parse_buffer` oracle
  for its `.unwrap()`. -/
  | binOfferClosure (parseOk : Bool) (sdp : String)
  /-- the `on-ice-candidate` signal closure (`webrtcbin_actor.rs`
  123–142 / 175–194). -/
  | binIceSignal (mline : Nat) (candidate : String)
  /-- the `on-negotiation-needed` signal closure (`webrtcbin_actor.rs`
  107–121). -/
  | binNegotiationSignal
  /-- the `connect_pad_added` closure (`sendrecv.rs` 144–155). -/
  | padAdded (dir : PadDir)

/-- Firing a continuation against the resolution outcome of its weak
back-reference (`alive`), the session state it may touch, and its payload.
Mirrors each closure's body: resolution is attempted first (after at most
pure argument reads) and failure returns before any effect. Recovered
errors of the wrapped handler only produce an `element_error!` log, no
engine/session effect. -/
def fireContinuation (alive : Bool) (st : PeerConnState) :
    Continuation → Outcome (PeerConnState × List Effect)
  | .wrtcIce order eng c => onIceCandidateCallback order eng alive st c
  | .binOfferPromise reply =>
    if alive then
      match onOfferCreated reply with
      | .ok effs => .ok (st, effs)
      | .errResult => .ok (st, [])
      | .panicked => .panicked
    else .ok (st, [])
  | .binAnswerPromise reply =>
    if alive then
      match onAnswerCreated reply with
      | .ok effs => .ok (st, effs)
      | .errResult => .ok (st, [])
      | .panicked => .panicked
    else .ok (st, [])
  | .binOfferClosure parseOk sdp =>
    if alive then
      if parseOk then
        .ok (st, [Effect.engine (EngineOp.setRemoteDescription SDPType.offer sdp),
                  Effect.engine EngineOp.createAnswer])
      else .panicked
    else .ok (st, [])
  | .binIceSignal mline candidate =>
    if alive then .ok (st, webrtcbinOnIceCandidate mline candidate)
    else .ok (st, [])
  | .binNegotiationSignal =>
    if alive then .ok (st, onNegotiationNeeded) else .ok (st, [])
  | .padAdded dir =>
    if alive then .ok (st, onIncomingStream dir) else .ok (st, [])

/-! ## Spec-modelled components (absent from src) -/

/-- `NegotiationRole` of the spec's data model (§3). -/
inductive NegRole where
  | initiator
  | responder
deriving DecidableEq, Repr

/-- Modelled from the spec: the negotiation states of §4.1
(`Idle → OfferCreated → LocalDescriptionSet → AnswerCreated →
RemoteDescriptionSet → Stable`, `Failed` from anywhere). The source keeps
no negotiation-state variable; these labels exist only in the spec. -/
inductive NegState where
  | idle
  | offerCreated
  | localDescriptionSet
  | answerCreated
  | remoteDescriptionSet
  | stable
  | failed
deriving DecidableEq, Repr

inductive NegEvent where
  | offerCompleted
  | answerCompleted
  | remoteAnswerApplied
deriving DecidableEq, Repr

/-- Modelled from the spec: the state transitions §4.1 names for the valid
combinations; anything else stays put (log and discard). -/
def specTransition (role : NegRole) (s : NegState) (e : NegEvent) : NegState :=
  match role, s, e with
  | .initiator, .idle, .offerCompleted => .localDescriptionSet
  | .responder, .idle, .answerCompleted => .stable
  | .initiator, .localDescriptionSet, .remoteAnswerApplied => .stable
  | _, s, _ => s

/-- A peer session entry as the spec's registry stores it (§3/§4.2). -/
structure PeerSession where
  role : NegRole
deriving DecidableEq, Repr

/-- Engine-side teardown steps of the spec's `remove` (§4.2):
block-then-unlink-then-unblock. -/
inductive TeardownOp where
  | blockSharedOutput
  | unlinkBranch (p : Nat)
  | releaseBlock
deriving DecidableEq, Repr

/-- Modelled from the spec: the Peer Registry of §4.2. The repository
under `src/` contains only the registry's caller (`web_socket.rs` routes
`("add", peer)` / `("remove", peer)` events); the registry itself is
specified in §4.2: a map keyed by peer id, `remove` a silent no-op when
the id is absent. -/
structure PeerRegistry where
  sessions : List (Nat × PeerSession)
deriving DecidableEq, Repr

def PeerRegistry.containsPeer (r : PeerRegistry) (p : Nat) : Bool :=
  r.sessions.any fun e => e.1 == p

/-- Modelled from the spec: `remove(peer_id)` — when present, unlink with
the block/unlink/unblock discipline and drop the entry; when absent, a
silent no-op (§4.2). -/
def PeerRegistry.removePeer (r : PeerRegistry) (p : Nat) :
    PeerRegistry × List TeardownOp :=
  if r.containsPeer p then
    (⟨r.sessions.filter fun e => e.1 != p⟩,
     [.blockSharedOutput, .unlinkBranch p, .releaseBlock])
  else (r, [])

/-- The value carried by an `Except.ok`, with a default for the error case
(used to state payload inequalities without a binder). -/
def exceptValue (e : Except String String) (dflt : String) : String :=
  match e with
  | .ok w => w
  | .error _ => dflt

/-! # Theorems -/

/-- Helper: after filtering out key `p`, no entry with key `p` remains. -/
theorem any_filter_ne_self (xs : List (Nat × PeerSession)) (p : Nat) :
    ((xs.filter fun e => e.1 != p).any fun e => e.1 == p) = false := by
  induction xs with
  | nil => rfl
  | cons x t ih =>
    by_cases h : x.1 = p
    · simp [List.filter_cons, h, ih]
    · simp [List.filter_cons, h, ih]

/-- Helper: the only recovered-error tags of `deserializeJson`. -/
theorem deserializeJson_err_tags (p : String → Bool) (j : Json) (tag : String)
    (h : deserializeJson p j = DeserResult.err tag) :
    tag = "sdp-parse" ∨ tag = "SDP type not supported" := by
  unfold deserializeJson at h
  split at h
  · exact absurd h (by simp)
  · split at h
    · split at h
      · exact absurd h (by simp)
      · split at h
        · exact absurd h (by simp)
        · split at h
          · exact absurd h (by simp)
          · exact Or.inr (DeserResult.err.inj h).symm
    · exact Or.inl (DeserResult.err.inj h).symm

/-- C1: the claim says ICE candidates received from the remote peer before
the remote description is set are queued and only later flushed to the
engine. The ICE `on_tell` handler instead forwards every remote candidate
to `add_ice_candidate` immediately — whatever the session state (in
particular with `remoteDescription = none`) — and never touches the
pending queue, which the source uses only for locally discovered
candidates awaiting outbound signaling. -/
theorem c1_remote_ice_applied_early (st : PeerConnState) (candidate : String)
    (mline : Nat) (mid : String) :
    iceTellHandler engAllOk true st candidate mline mid =
      Outcome.ok (st, [Effect.engine (EngineOp.addIceCandidate 0 candidate)]) := rfl

/-- C2: the claim says an invalid (state, SDP kind) combination is logged
and discarded, leaving the session in its prior state and never crashing.
The code has no state check at all: an `Answer` arriving at a Responder
session still in `Idle` is applied to the engine (`set-remote-description`
emitted, remote description overwritten); a kind outside offer/answer
reaching `handle_sdp` becomes an actor panic through the caller's
`.expect("couldn't handle sdp")`. -/
theorem c2_invalid_pair_applied_not_discarded :
    handleSdp gstOk true SDPType.answer "ANSWER_X" =
      CbResult.ok [Effect.engine (EngineOp.setRemoteDescription SDPType.answer "ANSWER_X")]
  ∧ mainFnApplySdp (handleSdp gstOk true SDPType.pranswer "X") = Outcome.panicked
  ∧ sdpTellHandler engAllOk 1 true ⟨none, []⟩ "answer" "ANSWER_X" =
      Outcome.ok (⟨some "ANSWER_X", []⟩,
        [Effect.engine (EngineOp.setRemoteDescription SDPType.answer "ANSWER_X"),
         Effect.engine EngineOp.createAnswer,
         Effect.send "nats_actor" (OutboundMsg.sdpTyped 1 SDPType.answer "ANSWER_1"),
         Effect.engine (EngineOp.setLocalDescription SDPType.answer "ANSWER_1"),
         Effect.spawnGstreamer]) :=
  ⟨rfl, rfl, rfl⟩

/-- C3: the claim says no engine-boundary error may become a panic. Each
boundary call in the source panics on error: `set_remote_description`
(`panic!` in the SDP handler), `add-ice-candidate` (`unwrap` in
`App::handle_ice`, `panic!` in the ICE handler), and the NATS publish path
(`upgrade().unwrap()` / `.expect`). -/
theorem c3_engine_errors_panic :
    sdpTellHandler engSetRemoteFails 1 true ⟨none, []⟩ "offer" "OFFER_1" =
      Outcome.panicked
  ∧ appHandleIce false 0 "c1" = Outcome.panicked
  ∧ natsPublishSdp false true 1 SDPType.answer "A" = Outcome.panicked
  ∧ iceTellHandler { engAllOk with addIceOk := false } true ⟨none, []⟩ "c1" 0 "" =
      Outcome.panicked :=
  ⟨rfl, rfl, rfl, rfl⟩

/-- C4: the claim says the Responder emits `(Answer, s)` with the payload
equal to the engine's answer SDP. `on_answer_created` with the engine's
answer `"ANSWER_1"` does set the local description, but the message told
to the `"client"` mailbox is the literal string `"sdp"` — not the answer
and not its serialization, which the code computes and drops. -/
theorem c4_answer_payload_is_literal_sdp :
    onAnswerCreated (PromiseReply.replied (some "ANSWER_1")) =
      CbResult.ok [Effect.engine (EngineOp.setLocalDescription SDPType.answer "ANSWER_1"),
                   Effect.send "client" (OutboundMsg.text "sdp")]
  ∧ exceptValue (serialize SDPType.answer "ANSWER_1") "" ≠ "sdp"
  ∧ "sdp" ≠ "ANSWER_1" := by
  refine ⟨rfl, by decide, by decide⟩

/-- C5: an Initiator session whose offer promise completes with SDP text
`s` sets `s` as local description on the engine and tells
`utils::serialize(Offer, s)` — the wire form of the `(Offer, s)` event —
to the `"server"` mailbox (the registered remote mailbox of this
single-peer variant); `on_negotiation_needed` is what requested the offer.
The `LocalDescriptionSet` target state is the spec-modelled transition, as
src keeps no state variable. -/
theorem c5_offer_created_emits_offer (s : String) :
    onOfferCreated (PromiseReply.replied (some s)) =
      CbResult.ok [Effect.engine (EngineOp.setLocalDescription SDPType.offer s),
                   Effect.send "server" (OutboundMsg.text (wireEncode (wireJson "offer" s)))]
  ∧ serialize SDPType.offer s = Except.ok (wireEncode (wireJson "offer" s))
  ∧ onNegotiationNeeded = [Effect.engine EngineOp.createOffer]
  ∧ specTransition NegRole.initiator NegState.idle NegEvent.offerCompleted =
      NegState.localDescriptionSet :=
  ⟨rfl, rfl, rfl, rfl⟩

/-- C6: every registered asynchronous continuation (promise change funcs,
signal closures, the pad-added closure, the webrtc-rs ICE callback) whose
weak back-reference no longer resolves returns without any effect and
without touching the session state. -/
theorem c6_dead_continuations_no_effects (c : Continuation) (st : PeerConnState) :
    fireContinuation false st c = Outcome.ok (st, []) := by
  cases c with
  | wrtcIce order eng cand => cases cand <;> rfl
  | binOfferPromise reply => rfl
  | binAnswerPromise reply => rfl
  | binOfferClosure parseOk sdp => rfl
  | binIceSignal mline candidate => rfl
  | binNegotiationSignal => rfl
  | padAdded dir => rfl

/-- C7 counterexample: serializing `(Offer, "v=0")` and deserializing the
result (with an engine parser that accepts the text) yields the
JSON-string-encoded text `"\"v=0\""`, not `"v=0"`: `utils::serialize`
JSON-encodes the SDP twice, so the round trip is not the identity. -/
theorem c7_roundtrip_counterexample :
    serialize SDPType.offer "v=0" = Except.ok (wireEncode (wireJson "offer" "v=0"))
  ∧ deserialize (fun _ => true) (wireEncode (wireJson "offer" "v=0")) =
      DeserResult.ok SDPType.offer (jsonEncodeString "v=0")
  ∧ jsonEncodeString "v=0" ≠ "v=0" := by
  refine ⟨rfl, by decide, by decide⟩

/-- C7 amended: for kind ∈ {Offer, Answer} and any SDP text `s`,
deserializing the serialized wire object returns the same kind but with
the JSON-string-encoded text of `s` (quote-wrapped and escaped) as SDP —
and succeeds only when the engine's SDP parser accepts that encoded text. -/
theorem c7_roundtrip_amended (s : String) (p : String → Bool)
    (hp : p (jsonEncodeString s) = true) :
    deserializeJson p (wireJson "offer" s) =
      DeserResult.ok SDPType.offer (jsonEncodeString s)
  ∧ deserializeJson p (wireJson "answer" s) =
      DeserResult.ok SDPType.answer (jsonEncodeString s) := by
  constructor
  · show (if p (jsonEncodeString s) = true then _ else _) = _
    rw [if_pos hp]
    simp
  · show (if p (jsonEncodeString s) = true then _ else _) = _
    rw [if_pos hp]
    simp

/-- C7 witness for the amended theorem at `s = "v=0"` with an accepting
parser oracle. -/
theorem c7_roundtrip_amended_witness :
    deserializeJson (fun _ => true) (wireJson "offer" "v=0") =
      DeserResult.ok SDPType.offer (jsonEncodeString "v=0") :=
  (c7_roundtrip_amended "v=0" (fun _ => true) rfl).1

/-- C8: the claim says every locally discovered candidate is forwarded to
the remote mailbox unconditionally. Instead: the webrtcbin variant feeds
the candidate back into its OWN engine (`add-ice-candidate` on itself, no
outbound send); the sendrecv variant builds the JSON message and sends
nothing (the send site is a `// TODO`); the webrtc-rs variant only
buffers the candidate while the remote description is unset. -/
theorem c8_local_candidates_not_forwarded :
    webrtcbinOnIceCandidate 0 "c1" = [Effect.engine (EngineOp.addIceCandidate 0 "c1")]
  ∧ sends (webrtcbinOnIceCandidate 0 "c1") = []
  ∧ (sendrecvOnIceCandidate 0 "c1").2 = []
  ∧ onIceCandidateCallback 1 engAllOk true ⟨none, []⟩ (some ⟨0, "c1", none⟩) =
      Outcome.ok (⟨none, [⟨0, "c1", none⟩]⟩, []) :=
  ⟨rfl, rfl, rfl, rfl⟩

/-- C9: removing an absent peer id from the (spec-modelled §4.2) registry
is a silent no-op — no error, no teardown effects, registry unchanged —
and in particular a second `remove` right after a successful one is a
no-op. -/
theorem c9_remove_absent_noop (r : PeerRegistry) (p : Nat) :
    (r.containsPeer p = false → r.removePeer p = (r, []))
  ∧ (r.removePeer p).1.removePeer p = ((r.removePeer p).1, []) := by
  constructor
  · intro h
    simp [PeerRegistry.removePeer, h]
  · by_cases h : r.containsPeer p
    · simp only [PeerRegistry.removePeer, h, if_true]
      have h2 : (PeerRegistry.mk (r.sessions.filter fun e => e.1 != p)).containsPeer p
          = false := any_filter_ne_self r.sessions p
      simp [PeerRegistry.removePeer, h2]
    · simp [PeerRegistry.removePeer, h]

/-- C9 witness: removing peer 2 from a registry holding only peer 1. -/
theorem c9_remove_absent_noop_witness :
    PeerRegistry.removePeer ⟨[(1, ⟨NegRole.responder⟩)]⟩ 2 =
      (⟨[(1, ⟨NegRole.responder⟩)]⟩, []) :=
  (c9_remove_absent_noop ⟨[(1, ⟨NegRole.responder⟩)]⟩ 2).1 (by decide)

/-- C10 counterexample: a wire input whose base64 payload is the valid
JSON object with only an (empty-string) `sdp` field and no `type` field.
The claim predicts a panic (`type` missing), but with an engine parser
that rejects the body (gst's `parse_buffer` rejects an empty buffer) the
`?` on `parse_buffer` returns the recovered error first: `deserialize`
yields `Err`, not a panic. -/
theorem c10_missing_type_yields_err_not_panic :
    deserialize (fun _ => false)
      (base64encode (strToBytes (Json.render (Json.jobj [("sdp", Json.jstr "")])))) =
      DeserResult.err "sdp-parse"
  ∧ DeserResult.err "sdp-parse" ≠ DeserResult.panicked := by
  refine ⟨by decide, by decide⟩

/-- C10 amended: `deserialize` panics via `unwrap` when the `sdp` field is
missing or not a string, and when the `sdp` field is a string the engine
parser accepts while the `type` field is missing or not a string; when
the engine parser rejects the `sdp` string it returns a recovered error
even if `type` is missing; and `Err` arises only from invalid base64,
invalid JSON/UTF-8, a rejected SDP body, or an unsupported `type`
string. -/
theorem c10_deserialize_panic_classification (p : String → Bool) (j : Json) :
    ((j.getField "sdp").asStr = none → deserializeJson p j = DeserResult.panicked)
  ∧ (∀ s, (j.getField "sdp").asStr = some s → p s = false →
      deserializeJson p j = DeserResult.err "sdp-parse")
  ∧ (∀ s, (j.getField "sdp").asStr = some s → p s = true →
      (j.getField "type").asStr = none → deserializeJson p j = DeserResult.panicked)
  ∧ (∀ input tag, deserialize p input = DeserResult.err tag →
      tag = "base64" ∨ tag = "json" ∨ tag = "sdp-parse" ∨
        tag = "SDP type not supported") := by
  refine ⟨?_, ?_, ?_, ?_⟩
  · intro h
    simp [deserializeJson, h]
  · intro s hs hp
    simp [deserializeJson, hs, hp]
  · intro s hs hp ht
    simp [deserializeJson, hs, hp, ht]
  · intro input tag h
    unfold deserialize at h
    split at h
    · exact Or.inl (DeserResult.err.inj h).symm
    · split at h
      · exact Or.inr (Or.inl (DeserResult.err.inj h).symm)
      · split at h
        · exact Or.inr (Or.inl (DeserResult.err.inj h).symm)
        · exact Or.inr (Or.inr (deserializeJson_err_tags p _ tag h))

/-- C10 witness for the amended theorem: a JSON object with a string `sdp`
the parser accepts and no `type` field panics at the `type` unwrap. -/
theorem c10_deserialize_panic_classification_witness :
    deserializeJson (fun _ => true) (Json.jobj [("sdp", Json.jstr "x")]) =
      DeserResult.panicked :=
  (c10_deserialize_panic_classification (fun _ => true)
    (Json.jobj [("sdp", Json.jstr "x")])).2.2.1 "x" rfl rfl rfl

end WebrtcP2P
